import Mathlib

/-!
Verification of the ScopeGreen MCP gateway (src/server.py).

The repository exposes two tool operations, `search_lca_metrics` and
`get_available_metrics`, each of which reads the `SCOPEGREEN_API_KEY`
environment variable, builds an outbound HTTP GET request, and maps the
transport outcome (2xx response, non-2xx response, connection failure,
malformed body, unexpected fault) to a returned dictionary.

We embed the two functions as total Lean functions.  The transport is an
oracle value describing what the single HTTP call would do; the result of
an operation is the returned `GatewayResult` together with the outbound
request that was issued (`none` when the operation short-circuits before
any network call).
-/

namespace ScopeGreen

/-- A JSON value, the shape of decoded HTTP response bodies. -/
inductive Json where
  | str : String → Json
  | num : Int → Json
  | bool : Bool → Json
  | null : Json
  | arr : List Json → Json
  | obj : List (String × Json) → Json
deriving Repr

/-- A value that can appear in the outbound query mapping: the Python
`params` dict holds strings (`item_name`, `metric`, `year`, `geography`,
`unit`, `mode`, `domain`), an integer (`num_matches`) and a boolean
(`not_english`). -/
inductive PValue where
  | str : String → PValue
  | int : Int → PValue
  | bool : Bool → PValue
deriving Repr, DecidableEq

/-- The arguments received by `search_lca_metrics` after the host framework
has applied the Python default-argument values.  A field default here
mirrors the default value in the Python signature (src/server.py lines
12-21); an explicit `none` models the caller passing `None`. -/
structure SearchRequest where
  item_name : String
  metric : Option String := some "Carbon footprint"
  year : Option String := none
  geography : Option String := none
  num_matches : Option Int := some 1
  unit : Option String := none
  mode : Option String := some "lite"
  domain : Option String := none
  not_english : Option Bool := some false
deriving Repr

/-- The `effective_domain` computation of src/server.py line 55:
`domain if domain is not None else "Materials & Products"`. -/
def effective_domain (req : SearchRequest) : String :=
  match req.domain with
  | some d => d
  | none => "Materials & Products"

/-- The `params` dict of src/server.py lines 59-69, before None filtering:
an association of parameter names to possibly-absent values. -/
def params (req : SearchRequest) : List (String × Option PValue) :=
  [ ("item_name", some (.str req.item_name)),
    ("metric", req.metric.map .str),
    ("year", req.year.map .str),
    ("geography", req.geography.map .str),
    ("num_matches", req.num_matches.map .int),
    ("unit", req.unit.map .str),
    ("mode", req.mode.map .str),
    ("domain", some (.str (effective_domain req))),
    ("not_english", req.not_english.map .bool) ]

/-- The `filtered_params` dict comprehension of src/server.py line 71:
keep exactly the entries whose value is not None. -/
def filtered_params (req : SearchRequest) : List (String × PValue) :=
  (params req).filterMap fun kv => kv.2.map fun v => (kv.1, v)

/-- An HTTP response as seen through httpx: its status code, its raw text
body, and the result of attempting to decode that body as JSON
(`none` when `response.json()` would raise `json.JSONDecodeError`). -/
structure HttpResponse where
  status_code : Nat
  text : String
  jsonVal : Option Json
deriving Repr

/-- The behaviour of the single outbound HTTP call: either a response
arrives, or the transport raises `httpx.RequestError` (DNS failure,
refused connection, network unreachable), or some other exception is
raised during the call. -/
inductive Transport where
  | ok : HttpResponse → Transport
  | requestError : Transport
  | otherError : Transport
deriving Repr

/-- The value returned to the caller: either the decoded JSON body of a
2xx response, or an error dictionary with a message and an optional
details payload (a raw text body is carried as `Json.str`). -/
inductive GatewayResult where
  | success : Json → GatewayResult
  | error : String → Option Json → GatewayResult
deriving Repr

/-- The outbound HTTP GET request issued by an operation. -/
structure OutboundRequest where
  path : String
  queryParams : List (String × PValue)
  authorization : String
deriving Repr

/-- Python truthiness test `not api_key` on an `Optional[str]`:
true exactly when the variable is unset or set to the empty string
(src/server.py line 48). -/
def apiKeyFalsy : Option String → Bool
  | none => true
  | some s => s = ""

/-- httpx `raise_for_status` raises `HTTPStatusError` exactly when the
status code is outside the 2xx success range. -/
def is_success (code : Nat) : Bool :=
  200 ≤ code && code < 300

/-- Fixed message of the missing-credential short circuit. -/
def credMissingMsg : String :=
  "SCOPEGREEN_API_KEY not found in environment variables"

/-- Fixed message of the `httpx.RequestError` branch. -/
def connectFailMsg : String :=
  "Failed to connect to the ScopeGreen API."

/-- Fixed message of the catch-all `except Exception` branch. -/
def unexpectedMsg : String :=
  "An unexpected error occurred during the API call."

/-- Message of the `HTTPStatusError` branch, parameterized by the
response status code. -/
def statusFailMsg (code : Nat) : String :=
  "API request failed with status " ++ toString code

/-- Embedding of `search_lca_metrics` (src/server.py lines 12-92).
Returns the `GatewayResult` handed back to the caller together with the
outbound request, `none` when no network call was made. -/
def search_lca_metrics (api_key : Option String) (req : SearchRequest)
    (transport : Transport) : GatewayResult × Option OutboundRequest :=
  if apiKeyFalsy api_key then
    (.error credMissingMsg none, none)
  else
    let request : OutboundRequest :=
      { path := "/api/metrics/search",
        queryParams := filtered_params req,
        authorization := "Bearer " ++ api_key.getD "" }
    match transport with
    | .ok resp =>
      if is_success resp.status_code then
        match resp.jsonVal with
        | some j => (.success j, some request)
        | none => (.error unexpectedMsg none, some request)
      else
        let error_detail : Json :=
          match resp.jsonVal with
          | some j => j
          | none => .str resp.text
        (.error (statusFailMsg resp.status_code) (some error_detail), some request)
    | .requestError => (.error connectFailMsg none, some request)
    | .otherError => (.error unexpectedMsg none, some request)

/-- Embedding of `get_available_metrics` (src/server.py lines 95-119).
Unlike `search_lca_metrics`, its `HTTPStatusError` branch passes
`exc.response.text` as the details payload without attempting any JSON
decoding (src/server.py line 113). -/
def get_available_metrics (api_key : Option String)
    (transport : Transport) : GatewayResult × Option OutboundRequest :=
  if apiKeyFalsy api_key then
    (.error credMissingMsg none, none)
  else
    let request : OutboundRequest :=
      { path := "/api/metrics/available",
        queryParams := [],
        authorization := "Bearer " ++ api_key.getD "" }
    match transport with
    | .ok resp =>
      if is_success resp.status_code then
        match resp.jsonVal with
        | some j => (.success j, some request)
        | none => (.error unexpectedMsg none, some request)
      else
        (.error (statusFailMsg resp.status_code) (some (.str resp.text)), some request)
    | .requestError => (.error connectFailMsg none, some request)
    | .otherError => (.error unexpectedMsg none, some request)

end ScopeGreen

namespace ScopeGreen

/-- All parameter names that can ever occur in the outbound query. -/
def paramNames : List String :=
  ["item_name", "metric", "year", "geography", "num_matches",
   "unit", "mode", "domain", "not_english"]

/-- The mocked availability payload used in the specification. -/
def mockedMetricsBody : Json :=
  .obj [("metrics", .arr [.str "Carbon footprint", .str "Land Use"])]

end ScopeGreen

namespace ScopeGreen

/-- Claim C1: for every SearchRequest, the outbound query mapping contains
the key domain; when the domain field is absent the value sent is
"Materials & Products", and when it is supplied the supplied value is
sent instead. -/
theorem C1_domain_defaulting (req : SearchRequest) :
    (req.domain = none →
      (filtered_params req).lookup "domain" =
        some (PValue.str "Materials & Products")) ∧
    (∀ d, req.domain = some d →
      (filtered_params req).lookup "domain" = some (PValue.str d)) := by
  have h : (filtered_params req).lookup "domain" =
      some (PValue.str (effective_domain req)) := by
    obtain ⟨i, m, y, g, n, u, mo, d, ne⟩ := req
    cases m <;> cases y <;> cases g <;> cases n <;> cases u <;> cases mo <;>
      cases ne <;> simp [filtered_params, params, List.lookup]
  constructor
  · intro hd
    rw [h, effective_domain, hd]
  · intro d hd
    rw [h, effective_domain, hd]

/-- Witness for C1 at concrete requests: one with domain absent, one with
domain supplied. -/
theorem C1_domain_defaulting_witness :
    (filtered_params { item_name := "steel beam" }).lookup "domain" =
      some (PValue.str "Materials & Products") ∧
    (filtered_params
        { item_name := "electricity grid mix",
          domain := some "Energy" }).lookup "domain" =
      some (PValue.str "Energy") :=
  ⟨(C1_domain_defaulting { item_name := "steel beam" }).1 rfl,
   (C1_domain_defaulting
      { item_name := "electricity grid mix", domain := some "Energy" }).2
      "Energy" rfl⟩

end ScopeGreen

namespace ScopeGreen

/-- A key absent from an association list of optional values is absent
from its None-filtered form. -/
theorem lookup_absent (k : String) (l : List (String × Option PValue))
    (h : k ∉ l.map Prod.fst) :
    ((l.filterMap fun kv => kv.2.map fun v => (kv.1, v)).lookup k) = none := by
  induction l with
  | nil => rfl
  | cons a l ih =>
    obtain ⟨a1, a2⟩ := a
    simp only [List.map_cons, List.mem_cons, not_or] at h
    have hb : (k == a1) = false := beq_eq_false_iff_ne.mpr h.1
    cases a2 <;>
      simp [List.filterMap_cons, List.lookup, ih h.2, hb]

/-- Looking up a key in the None-filtered association list skips an entry
with a different key, whether or not that entry is present. -/
theorem lookup_skip (k k' : String) (o : Option PValue)
    (l : List (String × Option PValue)) (h : (k == k') = false) :
    ((((k', o) :: l).filterMap fun kv => kv.2.map fun v => (kv.1, v)).lookup k) =
    ((l.filterMap fun kv => kv.2.map fun v => (kv.1, v)).lookup k) := by
  cases o <;> simp [List.filterMap_cons, List.lookup, h]

/-- Looking up a key in the None-filtered association list at an entry with
that key yields exactly the optional value of that entry, provided the key
does not recur later. -/
theorem lookup_here (k : String) (o : Option PValue)
    (l : List (String × Option PValue)) (h : k ∉ l.map Prod.fst) :
    ((((k, o) :: l).filterMap fun kv => kv.2.map fun v => (kv.1, v)).lookup k) =
    o := by
  cases o with
  | none => simpa [List.filterMap_cons] using lookup_absent k l h
  | some v => simp [List.filterMap_cons, List.lookup]

/-- The item_name entry of the outbound query. -/
theorem lookup_item_name (req : SearchRequest) :
    (filtered_params req).lookup "item_name" = some (PValue.str req.item_name) := by
  simp only [filtered_params, params]
  rw [lookup_here _ _ _ (by simp)]

/-- The metric entry of the outbound query. -/
theorem lookup_metric (req : SearchRequest) :
    (filtered_params req).lookup "metric" = req.metric.map PValue.str := by
  simp only [filtered_params, params]
  rw [lookup_skip _ _ _ _ (by decide), lookup_here _ _ _ (by simp)]

/-- The year entry of the outbound query. -/
theorem lookup_year (req : SearchRequest) :
    (filtered_params req).lookup "year" = req.year.map PValue.str := by
  simp only [filtered_params, params]
  rw [lookup_skip _ _ _ _ (by decide), lookup_skip _ _ _ _ (by decide),
      lookup_here _ _ _ (by simp)]

/-- The geography entry of the outbound query. -/
theorem lookup_geography (req : SearchRequest) :
    (filtered_params req).lookup "geography" = req.geography.map PValue.str := by
  simp only [filtered_params, params]
  rw [lookup_skip _ _ _ _ (by decide), lookup_skip _ _ _ _ (by decide),
      lookup_skip _ _ _ _ (by decide), lookup_here _ _ _ (by simp)]

/-- The num_matches entry of the outbound query. -/
theorem lookup_num_matches (req : SearchRequest) :
    (filtered_params req).lookup "num_matches" = req.num_matches.map PValue.int := by
  simp only [filtered_params, params]
  rw [lookup_skip _ _ _ _ (by decide), lookup_skip _ _ _ _ (by decide),
      lookup_skip _ _ _ _ (by decide), lookup_skip _ _ _ _ (by decide),
      lookup_here _ _ _ (by simp)]

/-- The unit entry of the outbound query. -/
theorem lookup_unit (req : SearchRequest) :
    (filtered_params req).lookup "unit" = req.unit.map PValue.str := by
  simp only [filtered_params, params]
  rw [lookup_skip _ _ _ _ (by decide), lookup_skip _ _ _ _ (by decide),
      lookup_skip _ _ _ _ (by decide), lookup_skip _ _ _ _ (by decide),
      lookup_skip _ _ _ _ (by decide), lookup_here _ _ _ (by simp)]

/-- The mode entry of the outbound query. -/
theorem lookup_mode (req : SearchRequest) :
    (filtered_params req).lookup "mode" = req.mode.map PValue.str := by
  simp only [filtered_params, params]
  rw [lookup_skip _ _ _ _ (by decide), lookup_skip _ _ _ _ (by decide),
      lookup_skip _ _ _ _ (by decide), lookup_skip _ _ _ _ (by decide),
      lookup_skip _ _ _ _ (by decide), lookup_skip _ _ _ _ (by decide),
      lookup_here _ _ _ (by simp)]

/-- The domain entry of the outbound query, always present with the
effective domain. -/
theorem lookup_domain (req : SearchRequest) :
    (filtered_params req).lookup "domain" =
      some (PValue.str (effective_domain req)) := by
  simp only [filtered_params, params]
  rw [lookup_skip _ _ _ _ (by decide), lookup_skip _ _ _ _ (by decide),
      lookup_skip _ _ _ _ (by decide), lookup_skip _ _ _ _ (by decide),
      lookup_skip _ _ _ _ (by decide), lookup_skip _ _ _ _ (by decide),
      lookup_skip _ _ _ _ (by decide), lookup_here _ _ _ (by simp)]

/-- The not_english entry of the outbound query. -/
theorem lookup_not_english (req : SearchRequest) :
    (filtered_params req).lookup "not_english" =
      req.not_english.map PValue.bool := by
  simp only [filtered_params, params]
  rw [lookup_skip _ _ _ _ (by decide), lookup_skip _ _ _ _ (by decide),
      lookup_skip _ _ _ _ (by decide), lookup_skip _ _ _ _ (by decide),
      lookup_skip _ _ _ _ (by decide), lookup_skip _ _ _ _ (by decide),
      lookup_skip _ _ _ _ (by decide), lookup_skip _ _ _ _ (by decide),
      lookup_here _ _ _ (by simp)]

/-- Every key of the outbound query is one of the nine parameter names. -/
theorem filtered_params_keys (req : SearchRequest) :
    ∀ kv ∈ filtered_params req, kv.1 ∈ paramNames := by
  intro kv hkv
  simp only [filtered_params, List.mem_filterMap] at hkv
  obtain ⟨a, ha, hfa⟩ := hkv
  rw [Option.map_eq_some'] at hfa
  obtain ⟨v, hv, hkv2⟩ := hfa
  subst hkv2
  simp only [params, List.mem_cons, List.not_mem_nil, or_false] at ha
  rcases ha with h | h | h | h | h | h | h | h | h <;> subst h <;>
    simp [paramNames]

/-- Claim C4: every optional field other than domain whose value is absent
is omitted entirely from the outbound query mapping; a key appears in the
mapping exactly when the corresponding field (after domain defaulting) is
present, and no key outside the nine parameter names ever appears. -/
theorem C4_absent_fields_omitted (req : SearchRequest) :
    (filtered_params req).lookup "item_name" = some (PValue.str req.item_name) ∧
    (filtered_params req).lookup "metric" = req.metric.map PValue.str ∧
    (filtered_params req).lookup "year" = req.year.map PValue.str ∧
    (filtered_params req).lookup "geography" = req.geography.map PValue.str ∧
    (filtered_params req).lookup "num_matches" = req.num_matches.map PValue.int ∧
    (filtered_params req).lookup "unit" = req.unit.map PValue.str ∧
    (filtered_params req).lookup "mode" = req.mode.map PValue.str ∧
    (filtered_params req).lookup "not_english" = req.not_english.map PValue.bool ∧
    ∀ kv ∈ filtered_params req, kv.1 ∈ paramNames :=
  ⟨lookup_item_name req, lookup_metric req, lookup_year req,
   lookup_geography req, lookup_num_matches req, lookup_unit req,
   lookup_mode req, lookup_not_english req, filtered_params_keys req⟩

/-- Witness for C4 at a concrete request leaving year, geography and unit
absent and explicitly clearing metric: each absent key is missing from the
mapping and the present ones carry their values. -/
theorem C4_absent_fields_omitted_witness :
    (filtered_params
        { item_name := "cotton t-shirt", metric := none }).lookup "year" =
      none ∧
    (filtered_params
        { item_name := "cotton t-shirt", metric := none }).lookup "metric" =
      none ∧
    (filtered_params
        { item_name := "cotton t-shirt", metric := none }).lookup "item_name" =
      some (PValue.str "cotton t-shirt") :=
  ⟨(C4_absent_fields_omitted
      { item_name := "cotton t-shirt", metric := none }).2.2.1,
   (C4_absent_fields_omitted
      { item_name := "cotton t-shirt", metric := none }).2.1,
   (C4_absent_fields_omitted
      { item_name := "cotton t-shirt", metric := none }).1⟩

end ScopeGreen

namespace ScopeGreen

/-- Claim C5: when the credential variable is unset, both operations make
no network call and return the ErrorResult naming the missing
credential. -/
theorem C5_missing_credential (req : SearchRequest) (t : Transport) :
    search_lca_metrics none req t =
      (GatewayResult.error
        "SCOPEGREEN_API_KEY not found in environment variables" none, none) ∧
    get_available_metrics none t =
      (GatewayResult.error
        "SCOPEGREEN_API_KEY not found in environment variables" none, none) :=
  ⟨rfl, rfl⟩

/-- Claim C9: a credential set to the empty string is treated exactly like
an unset one, because the check tests Python falsiness of the value: both
operations return the missing-credential ErrorResult and make no network
call. -/
theorem C9_empty_credential (req : SearchRequest) (t : Transport) :
    apiKeyFalsy (some "") = apiKeyFalsy none ∧
    search_lca_metrics (some "") req t =
      (GatewayResult.error
        "SCOPEGREEN_API_KEY not found in environment variables" none, none) ∧
    get_available_metrics (some "") t =
      (GatewayResult.error
        "SCOPEGREEN_API_KEY not found in environment variables" none, none) :=
  ⟨rfl, rfl, rfl⟩

/-- Claim C7: a transport-level connection failure yields, for both
operations, the fixed message and no details payload. -/
theorem C7_connection_failure (api_key : Option String) (req : SearchRequest)
    (hk : apiKeyFalsy api_key = false) :
    (search_lca_metrics api_key req Transport.requestError).1 =
      GatewayResult.error "Failed to connect to the ScopeGreen API." none ∧
    (get_available_metrics api_key Transport.requestError).1 =
      GatewayResult.error "Failed to connect to the ScopeGreen API." none := by
  constructor <;>
    simp [search_lca_metrics, get_available_metrics, hk, connectFailMsg]

/-- Witness for C7 with a concrete non-empty credential. -/
theorem C7_connection_failure_witness :
    (search_lca_metrics (some "valid-key") { item_name := "steel beam" }
        Transport.requestError).1 =
      GatewayResult.error "Failed to connect to the ScopeGreen API." none ∧
    (get_available_metrics (some "valid-key") Transport.requestError).1 =
      GatewayResult.error "Failed to connect to the ScopeGreen API." none :=
  C7_connection_failure (some "valid-key") { item_name := "steel beam" }
    (by decide)

/-- Claim C6: a 2xx response with a JSON-decodable body yields a
SuccessResult whose payload is exactly the decoded body, for both
operations. -/
theorem C6_success_roundtrip (api_key : Option String) (req : SearchRequest)
    (resp : HttpResponse) (j : Json)
    (hk : apiKeyFalsy api_key = false)
    (hs : is_success resp.status_code = true)
    (hj : resp.jsonVal = some j) :
    (search_lca_metrics api_key req (Transport.ok resp)).1 =
      GatewayResult.success j ∧
    (get_available_metrics api_key (Transport.ok resp)).1 =
      GatewayResult.success j := by
  constructor <;>
    simp [search_lca_metrics, get_available_metrics, hk, hs, hj]

/-- Witness for C6: the mocked 200 availability body is returned
unchanged. -/
theorem C6_success_roundtrip_witness :
    (get_available_metrics (some "valid-key")
        (Transport.ok
          ⟨200, "\x7b\"metrics\": [\"Carbon footprint\", \"Land Use\"]\x7d",
           some mockedMetricsBody⟩)).1 =
      GatewayResult.success
        (Json.obj [("metrics",
          Json.arr [Json.str "Carbon footprint", Json.str "Land Use"])]) :=
  (C6_success_roundtrip (some "valid-key") { item_name := "x" }
     ⟨200, "\x7b\"metrics\": [\"Carbon footprint\", \"Land Use\"]\x7d",
      some mockedMetricsBody⟩
     mockedMetricsBody (by decide) (by decide) rfl).2

end ScopeGreen

namespace ScopeGreen

/-- Claim C8: a supplied year string is placed verbatim into the outbound
query without any validation, and the request proceeds (the outbound call
is made with exactly these parameters) regardless of its value. -/
theorem C8_year_passthrough (api_key : Option String) (req : SearchRequest)
    (y : String) (t : Transport)
    (hy : req.year = some y) (hk : apiKeyFalsy api_key = false) :
    (filtered_params req).lookup "year" = some (PValue.str y) ∧
    (search_lca_metrics api_key req t).2 =
      some { path := "/api/metrics/search",
             queryParams := filtered_params req,
             authorization := "Bearer " ++ api_key.getD "" } := by
  constructor
  · rw [lookup_year, hy]; rfl
  · cases t with
    | ok resp =>
      cases hs : is_success resp.status_code <;>
        cases hj : resp.jsonVal <;>
          simp [search_lca_metrics, hk, hs, hj]
    | requestError => simp [search_lca_metrics, hk]
    | otherError => simp [search_lca_metrics, hk]

/-- Witness for C8 at the year "1800", below the documented 2020 bound:
the value is still sent verbatim and the network call still happens. -/
theorem C8_year_passthrough_witness :
    (filtered_params
        { item_name := "steel beam", year := some "1800" }).lookup "year" =
      some (PValue.str "1800") ∧
    (search_lca_metrics (some "valid-key")
        { item_name := "steel beam", year := some "1800" }
        Transport.requestError).2 =
      some { path := "/api/metrics/search",
             queryParams := filtered_params
               { item_name := "steel beam", year := some "1800" },
             authorization := "Bearer valid-key" } :=
  C8_year_passthrough (some "valid-key")
    { item_name := "steel beam", year := some "1800" } "1800"
    Transport.requestError rfl (by decide)

/-- Claim C10: when the caller explicitly passes None for metric,
num_matches, mode or not_english, no default is substituted: the key is
omitted from the outbound query entirely; only domain has its default
re-substituted in the body.  When the caller omits an argument, the
Python default-argument values supply Carbon footprint, 1, lite and
false. -/
theorem C10_explicit_none_not_defaulted (req : SearchRequest)
    (hm : req.metric = none) (hn : req.num_matches = none)
    (hmo : req.mode = none) (hne : req.not_english = none) :
    (filtered_params req).lookup "metric" = none ∧
    (filtered_params req).lookup "num_matches" = none ∧
    (filtered_params req).lookup "mode" = none ∧
    (filtered_params req).lookup "not_english" = none ∧
    (filtered_params req).lookup "domain" =
      some (PValue.str (effective_domain req)) ∧
    ∀ s : String,
      ({ item_name := s } : SearchRequest).metric = some "Carbon footprint" ∧
      ({ item_name := s } : SearchRequest).num_matches = some 1 ∧
      ({ item_name := s } : SearchRequest).mode = some "lite" ∧
      ({ item_name := s } : SearchRequest).not_english = some false := by
  refine ⟨?_, ?_, ?_, ?_, lookup_domain req, fun s => ⟨rfl, rfl, rfl, rfl⟩⟩
  · rw [lookup_metric, hm]; rfl
  · rw [lookup_num_matches, hn]; rfl
  · rw [lookup_mode, hmo]; rfl
  · rw [lookup_not_english, hne]; rfl

/-- Witness for C10 at a request explicitly clearing the four defaulted
optional fields. -/
theorem C10_explicit_none_not_defaulted_witness :
    (filtered_params
        { item_name := "steel beam", metric := none, num_matches := none,
          mode := none, not_english := none }).lookup "metric" = none ∧
    (filtered_params
        { item_name := "steel beam", metric := none, num_matches := none,
          mode := none, not_english := none }).lookup "domain" =
      some (PValue.str "Materials & Products") :=
  ⟨(C10_explicit_none_not_defaulted
      { item_name := "steel beam", metric := none, num_matches := none,
        mode := none, not_english := none } rfl rfl rfl rfl).1,
   (C10_explicit_none_not_defaulted
      { item_name := "steel beam", metric := none, num_matches := none,
        mode := none, not_english := none } rfl rfl rfl rfl).2.2.2.2.1⟩

end ScopeGreen

namespace ScopeGreen

/-- Raw text of a 404 response body that is valid JSON. -/
def notFoundText : String := "\x7b\"reason\": \"not found\"\x7d"

/-- The JSON value that notFoundText decodes to. -/
def notFoundJson : Json := .obj [("reason", .str "not found")]

/-- Claim C3 counterexample: on a 404 response whose body is valid JSON,
get_available_metrics puts the raw text body into details, not the
decoded JSON value, even though decoding succeeds; the two differ. -/
theorem C3_counterexample :
    (get_available_metrics (some "valid-key")
        (Transport.ok ⟨404, notFoundText, some notFoundJson⟩)).1 =
      GatewayResult.error "API request failed with status 404"
        (some (Json.str notFoundText)) ∧
    Json.str notFoundText ≠ notFoundJson :=
  ⟨rfl, fun h => Json.noConfusion h⟩

/-- Claim C3 amended: on a non-2xx response, search_lca_metrics returns an
ErrorResult whose message carries the status code and whose details is
the JSON-decoded body, falling back to the raw text only when decoding
fails; get_available_metrics carries the status code in its message but
always uses the raw text body as details, with no JSON decoding
attempted. -/
theorem C3_status_error_details (api_key : Option String)
    (req : SearchRequest) (resp : HttpResponse)
    (hk : apiKeyFalsy api_key = false)
    (hs : is_success resp.status_code = false) :
    (search_lca_metrics api_key req (Transport.ok resp)).1 =
      GatewayResult.error (statusFailMsg resp.status_code)
        (some (match resp.jsonVal with
               | some j => j
               | none => Json.str resp.text)) ∧
    (get_available_metrics api_key (Transport.ok resp)).1 =
      GatewayResult.error (statusFailMsg resp.status_code)
        (some (Json.str resp.text)) ∧
    statusFailMsg resp.status_code =
      "API request failed with status " ++ toString resp.status_code := by
  refine ⟨?_, ?_, rfl⟩ <;>
    cases hj : resp.jsonVal <;>
      simp [search_lca_metrics, get_available_metrics, hk, hs, hj]

/-- Witness for the amended C3: a 404 with JSON body gives the decoded
body as details of the search operation, and a 500 with non-JSON text
body falls back to the raw text. -/
theorem C3_status_error_details_witness :
    (search_lca_metrics (some "valid-key") { item_name := "steel beam" }
        (Transport.ok ⟨404, notFoundText, some notFoundJson⟩)).1 =
      GatewayResult.error (statusFailMsg 404) (some notFoundJson) ∧
    (search_lca_metrics (some "valid-key") { item_name := "steel beam" }
        (Transport.ok ⟨500, "internal error", none⟩)).1 =
      GatewayResult.error (statusFailMsg 500)
        (some (Json.str "internal error")) :=
  ⟨(C3_status_error_details (some "valid-key") { item_name := "steel beam" }
      ⟨404, notFoundText, some notFoundJson⟩ (by decide) (by decide)).1,
   (C3_status_error_details (some "valid-key") { item_name := "steel beam" }
      ⟨500, "internal error", none⟩ (by decide) (by decide)).1⟩

end ScopeGreen

namespace ScopeGreen

/-- Claim C2: every invocation of either operation returns exactly one
GatewayResult (the result is a success or an error, never a propagated
fault, since both embeddings are total functions), and the result is a
SuccessResult exactly when the credential is present and the transport
delivered a 2xx response with a JSON-decodable body; every other path,
each failure path included, yields an ErrorResult. -/
theorem C2_result_characterization (api_key : Option String)
    (req : SearchRequest) (t : Transport) :
    ((∃ j, (search_lca_metrics api_key req t).1 = GatewayResult.success j) ∨
     (∃ m d, (search_lca_metrics api_key req t).1 = GatewayResult.error m d)) ∧
    ((∃ j, (get_available_metrics api_key t).1 = GatewayResult.success j) ∨
     (∃ m d, (get_available_metrics api_key t).1 = GatewayResult.error m d)) ∧
    (∀ j, (search_lca_metrics api_key req t).1 = GatewayResult.success j ↔
      (apiKeyFalsy api_key = false ∧ ∃ resp, t = Transport.ok resp ∧
        is_success resp.status_code = true ∧ resp.jsonVal = some j)) ∧
    (∀ j, (get_available_metrics api_key t).1 = GatewayResult.success j ↔
      (apiKeyFalsy api_key = false ∧ ∃ resp, t = Transport.ok resp ∧
        is_success resp.status_code = true ∧ resp.jsonVal = some j)) := by
  refine ⟨?_, ?_, ?_, ?_⟩
  · cases hres : (search_lca_metrics api_key req t).1 with
    | success j => exact Or.inl ⟨j, rfl⟩
    | error m d => exact Or.inr ⟨m, d, rfl⟩
  · cases hres : (get_available_metrics api_key t).1 with
    | success j => exact Or.inl ⟨j, rfl⟩
    | error m d => exact Or.inr ⟨m, d, rfl⟩
  · intro j
    cases hk : apiKeyFalsy api_key <;>
      cases t with
      | ok resp =>
        cases hs : is_success resp.status_code <;>
          cases hj : resp.jsonVal <;>
            simp [search_lca_metrics, hk, hs, hj]
      | requestError => simp [search_lca_metrics, hk]
      | otherError => simp [search_lca_metrics, hk]
  · intro j
    cases hk : apiKeyFalsy api_key <;>
      cases t with
      | ok resp =>
        cases hs : is_success resp.status_code <;>
          cases hj : resp.jsonVal <;>
            simp [get_available_metrics, hk, hs, hj]
      | requestError => simp [get_available_metrics, hk]
      | otherError => simp [get_available_metrics, hk]

/-- Witness for C2: a concrete successful call and a concrete failing one,
each returning the predicted single GatewayResult. -/
theorem C2_result_characterization_witness :
    (search_lca_metrics (some "valid-key") { item_name := "steel beam" }
        (Transport.ok ⟨200, "null", some Json.null⟩)).1 =
      GatewayResult.success Json.null ∧
    ∃ m d, (get_available_metrics (some "valid-key")
        Transport.otherError).1 = GatewayResult.error m d :=
  ⟨((C2_result_characterization (some "valid-key") { item_name := "steel beam" }
      (Transport.ok ⟨200, "null", some Json.null⟩)).2.2.1 Json.null).mpr
      ⟨by decide, ⟨200, "null", some Json.null⟩, rfl, by decide, rfl⟩,
   (C2_result_characterization (some "valid-key") { item_name := "steel beam" }
      Transport.otherError).2.1.resolve_left
      (by
        rintro ⟨j, hj⟩
        exact absurd
          (((C2_result_characterization (some "valid-key")
              { item_name := "steel beam" } Transport.otherError).2.2.2 j).mp hj)
          (by rintro ⟨-, resp, h, -⟩; exact Transport.noConfusion h))⟩

end ScopeGreen
